import Mathlib

/-!
Shallow embedding of the Frame Streams codec and handshake code of the
`ts-framestream` repository.

Buffers are modelled as `List Nat` of byte values; a JavaScript string is
modelled by the list of bytes of its UTF-8 encoding (`Buffer.byteLength`,
`Buffer.from(string)` and `buffer.toString()` translate a well-formed string
to and from exactly that byte list).  Errors thrown by the TypeScript code
are modelled with `Except`.
-/

/-- A content type, as the byte list of its UTF-8 encoding. -/
abbrev ContentType := List Nat

/-- ControlFrameType.ACCEPT (src/constants.ts). -/
def ControlFrameType.ACCEPT : Nat := 0x01

/-- ControlFrameType.START (src/constants.ts). -/
def ControlFrameType.START : Nat := 0x02

/-- ControlFrameType.STOP (src/constants.ts). -/
def ControlFrameType.STOP : Nat := 0x03

/-- ControlFrameType.READY (src/constants.ts). -/
def ControlFrameType.READY : Nat := 0x04

/-- ControlFrameType.FINISH (src/constants.ts). -/
def ControlFrameType.FINISH : Nat := 0x05

/-- ControlFieldType.CONTENT_TYPE (src/constants.ts). -/
def ControlFieldType.CONTENT_TYPE : Nat := 0x01

/-- ESCAPE_SEQUENCE: the 4-byte sequence 00 00 00 00 (src/constants.ts). -/
def ESCAPE_SEQUENCE : List Nat := [0, 0, 0, 0]

/-- CONTROL_FRAME_LENGTH_MAX = 512 (src/constants.ts). -/
def CONTROL_FRAME_LENGTH_MAX : Nat := 512

/-- CONTROL_FIELD_CONTENT_TYPE_LENGTH_MAX = 512 (src/constants.ts). -/
def CONTROL_FIELD_CONTENT_TYPE_LENGTH_MAX : Nat := 512

/-- Node's `buf.writeUInt32BE(n, 0)` on a 4-byte buffer: the four big-endian
bytes of `n` (the source always calls it with values below 2^32). -/
def writeUInt32BE (n : Nat) : List Nat :=
  [n / 16777216 % 256, n / 65536 % 256, n / 256 % 256, n % 256]

/-- Node's `buf.readUInt32BE(0)`: reads the first four bytes big-endian;
`none` models the ERR_OUT_OF_RANGE exception thrown when fewer than four
bytes are available. -/
def readUInt32BE : List Nat → Option Nat
  | b0 :: b1 :: b2 :: b3 :: _ => some (b0 * 16777216 + b1 * 65536 + b2 * 256 + b3)
  | _ => none

/-- Errors thrown by `Control.encode` / `Control.decode`
(src/Control/index.ts), named after the message strings of the `Error`
objects the code throws.  `rangeError` models Node's ERR_OUT_OF_RANGE thrown
by `readUInt32BE` on a subarray shorter than four bytes. -/
inductive ControlError where
  | tooShort
  | lengthExceeded (bufferLength : Nat)
  | invalidType (t : Nat)
  | invalidField (t : Nat)
  | fieldTooLong (len : Nat)
  | fieldNotAllowed
  | rangeError
deriving DecidableEq

/-- Result of `Control.decode` (type `DecodedControlFrame` in
src/Control/index.ts).  The implementation always assigns the
`contentTypes` array (possibly empty), so the field is not optional here. -/
structure DecodedControlFrame where
  type : Nat
  contentTypes : List ContentType
deriving DecidableEq

namespace Control

/-- The field bytes built by the `for (const contentType of contentTypes)`
loop of `Control.encode` (src/Control/index.ts, lines 215-231): for each
content type, the 4-byte CONTENT_TYPE constant, the 4-byte UTF-8 byte
length, then the UTF-8 bytes, in input order. -/
def encodeFields : List ContentType → List Nat
  | [] => []
  | ct :: rest =>
      writeUInt32BE ControlFieldType.CONTENT_TYPE ++
        writeUInt32BE (List.length ct) ++ ct ++ encodeFields rest

/-- Control.encode (src/Control/index.ts, lines 201-234).  `contentTypes`
is `none` when the optional argument is omitted; a present array — even an
empty one — is truthy in JavaScript, so `some []` also triggers the
STOP/FINISH guard. -/
def encode (type : Nat) (contentTypes : Option (List ContentType)) :
    Except ControlError (List Nat) :=
  if contentTypes.isSome ∧
      (type = ControlFrameType.STOP ∨ type = ControlFrameType.FINISH) then
    .error .fieldNotAllowed
  else
    .ok (writeUInt32BE type ++ encodeFields (contentTypes.getD []))

/-- The `while(offset < contentTypesBuffer.length)` loop of
`Control.decode` (src/Control/index.ts, lines 254-273).  Each iteration
reads a 4-byte field type (must equal CONTENT_TYPE), a 4-byte declared
length (must be at most 512), then takes that many bytes as the value;
`List.take` clamps to the end of the list exactly as Node's
`buffer.subarray` does, after which `offset += length` overshoots and the
loop exits.  The fuel argument only bounds the recursion; the caller passes
the byte count of the buffer, which exceeds the iteration count because
every iteration consumes at least eight bytes. -/
def decodeFieldsAux : Nat → List Nat → Except ControlError (List ContentType)
  | _, [] => .ok []
  | 0, _ :: _ => .error .rangeError
  | fuel + 1, bs =>
      match readUInt32BE bs with
      | none => .error .rangeError
      | some fieldType =>
          if fieldType = ControlFieldType.CONTENT_TYPE then
            match readUInt32BE (bs.drop 4) with
            | none => .error .rangeError
            | some len =>
                if len > CONTROL_FIELD_CONTENT_TYPE_LENGTH_MAX then
                  .error (.fieldTooLong len)
                else
                  match decodeFieldsAux fuel (((bs.drop 4).drop 4).drop len) with
                  | .error e => .error e
                  | .ok tail => .ok (((bs.drop 4).drop 4).take len :: tail)
          else .error (.invalidField fieldType)

/-- Control.decode (src/Control/index.ts, lines 236-279): rejects buffers
shorter than four bytes, then payloads (everything after the 4-byte type)
longer than 512 bytes (the error records `buffer.length`), then type values
outside {1,2,3,4,5}, then iterates the payload as content-type fields. -/
def decode (buffer : List Nat) : Except ControlError DecodedControlFrame :=
  if buffer.length < 4 then .error .tooShort
  else
    if (buffer.drop 4).length > CONTROL_FRAME_LENGTH_MAX then
      .error (.lengthExceeded buffer.length)
    else
      match readUInt32BE buffer with
      | none => .error .rangeError
      | some controlFrameType =>
          if controlFrameType = ControlFrameType.ACCEPT ∨
              controlFrameType = ControlFrameType.START ∨
              controlFrameType = ControlFrameType.STOP ∨
              controlFrameType = ControlFrameType.READY ∨
              controlFrameType = ControlFrameType.FINISH then
            match decodeFieldsAux (buffer.drop 4).length (buffer.drop 4) with
            | .error e => .error e
            | .ok contentTypes => .ok ⟨controlFrameType, contentTypes⟩
          else .error (.invalidType controlFrameType)

/-- Control.checkContentTypes (src/Control/index.ts, lines 281-287): the
instance field `this.contentTypes` is `none` when the constructor argument
was omitted; otherwise `configured.some((ct) => candidate.includes(ct))`. -/
def checkContentTypes (thisContentTypes : Option (List ContentType))
    (contentType : List ContentType) : Bool :=
  match thisContentTypes with
  | none => false
  | some cts => cts.any (fun ct => contentType.contains ct)

/-- Composition tested by the spec's round-trip property:
`Control.decode(Control.encode(type, contentTypes))`. -/
def roundtrip (type : Nat) (contentTypes : List ContentType) :
    Except ControlError DecodedControlFrame :=
  (encode type (some contentTypes)).bind decode

end Control

deriving instance DecidableEq for Except

/-- Errors thrown by `Writer.init` (src/index.ts) and `SocketWriter.handshake`
(the Writer module): a propagated codec error, the "Expected ACCEPT control
frame, got ..." error, or the "Content types not supported" error. -/
inductive HandshakeError where
  | controlError (e : ControlError)
  | unexpectedType (t : Nat)
  | unsupportedContentType
deriving DecidableEq

namespace Encoder

/-- Encoder.encode of the frame codec (src/encoder/Encoder.ts): the 4-byte
big-endian length of the buffer followed by the buffer. -/
def encode (buf : List Nat) : List Nat :=
  writeUInt32BE buf.length ++ buf

/-- The bytes Encoder.sendControlFrame (src/encoder.ts, lines 91-136) writes
to the socket: after the same STOP/FINISH guard as `Control.encode`, the
escape sequence, the 4-byte big-endian control-frame length, then the
control-frame payload (type plus fields, built by the same loop as
`Control.encode`, here shared as `Control.encodeFields`). -/
def sendControlFrame (type : Nat) (contentTypes : Option (List ContentType)) :
    Except ControlError (List Nat) :=
  if contentTypes.isSome ∧
      (type = ControlFrameType.STOP ∨ type = ControlFrameType.FINISH) then
    .error .fieldNotAllowed
  else
    let finalBuffer := writeUInt32BE type ++ Control.encodeFields (contentTypes.getD [])
    .ok (ESCAPE_SEQUENCE ++ writeUInt32BE finalBuffer.length ++ finalBuffer)

/-- Encoder.bufferToControlFrameType (src/encoder.ts, lines 155-157):
`buffer.readUInt32BE(0)` on the raw received buffer, with no framing
stripped; `none` models the exception on buffers shorter than 4 bytes. -/
def bufferToControlFrameType (buffer : List Nat) : Option Nat :=
  readUInt32BE buffer

/-- Registration state of the promise set up by Encoder.recv (src/encoder.ts,
lines 37-71): three socket listeners (`data`, `error`, `close`) and, when the
timeout argument is truthy, one pending `setTimeout` timer. -/
structure RecvState where
  dataRegistered : Bool
  errorRegistered : Bool
  closeRegistered : Bool
  timerPending : Bool
deriving DecidableEq

/-- The registrations Encoder.recv performs on entry: `socket.once` for
`data`, `error` and `close`, and `setTimeout(...)` guarded by `if(timeout)`
(so a missing or zero timeout schedules no timer). -/
def recvRegister (timeout : Option Nat) : RecvState :=
  ⟨true, true, true, match timeout with | none => false | some t => t != 0⟩

/-- The `cleanup()` closure of Encoder.recv: `socket.off` for `data`,
`error` and `close`.  There is no `clearTimeout`, so a pending timer is
left untouched. -/
def recvCleanup (s : RecvState) : RecvState :=
  { s with dataRegistered := false, errorRegistered := false,
           closeRegistered := false }

/-- Effect of the `data` event firing on the registration state: `onData`
runs `cleanup()` and resolves (the `once` listeners are also removed by
`cleanup`); the timer, if pending, keeps running. -/
def recvFireData (s : RecvState) : RecvState :=
  recvCleanup s

end Encoder

namespace Writer

/-- The ACCEPT check of Writer.init (src/index.ts, lines 36-40): the raw
received buffer is fed to `Encoder.bufferToControlFrameType` and compared
against ACCEPT; a mismatch throws "Expected ACCEPT control frame, got ...". -/
def initAcceptCheck (resp : List Nat) : Except HandshakeError Unit :=
  match Encoder.bufferToControlFrameType resp with
  | none => .error (.controlError .rangeError)
  | some respType =>
      if respType ≠ ControlFrameType.ACCEPT then
        .error (.unexpectedType respType)
      else .ok ()

end Writer

/-- Outcome of a SocketWriter.handshake run: the frames written to the
socket via `writeFrame`, in order, and the settlement of the promise. -/
structure HandshakeResult where
  sent : List (List Nat)
  outcome : Except HandshakeError Unit
deriving DecidableEq

namespace SocketWriter

/-- SocketWriter.handshake (Writer module, lines 110-124) as a function of
the configured content types and the raw buffer delivered by `recv`:

1. writes `writeFrame(control.encode(READY))`, i.e. the frame codec's
   length-prefix wrapping of `Control.encode(READY, contentTypes)`;
2. decodes the received buffer with `Control.decode`, propagating a thrown
   codec error;
3. rejects a decoded type other than ACCEPT with "Expected ACCEPT...";
4. the guard `if(contentTypes && !this.control.checkContentTypes(...))`:
   `Control.decode` always returns a content-type array and an array —
   even an empty one — is truthy in JavaScript, so the guard reduces to
   the negated `checkContentTypes` result;
5. then returns, writing nothing further. -/
def handshake (contentTypes : Option (List ContentType))
    (acceptFrame : List Nat) : HandshakeResult :=
  match Control.encode ControlFrameType.READY contentTypes with
  | .error e => ⟨[], .error (.controlError e)⟩
  | .ok readyBytes =>
      let sent := [Encoder.encode readyBytes]
      match Control.decode acceptFrame with
      | .error e => ⟨sent, .error (.controlError e)⟩
      | .ok decoded =>
          if decoded.type ≠ ControlFrameType.ACCEPT then
            ⟨sent, .error (.unexpectedType decoded.type)⟩
          else if ! Control.checkContentTypes contentTypes decoded.contentTypes then
            ⟨sent, .error .unsupportedContentType⟩
          else ⟨sent, .ok ()⟩

/-- Registration state of the promise set up by SocketWriter.recv (Writer
module, lines 96-108): one `socket.once('data', ...)` listener and, when a
timeout argument is given, one `setTimeout` timer. No `error` or `close`
listener is registered at all. -/
structure SWRecvState where
  dataRegistered : Bool
  timerPending : Bool
deriving DecidableEq

/-- The registrations SocketWriter.recv performs on entry. -/
def recvRegister (timeout : Option Nat) : SWRecvState :=
  ⟨true, timeout.isSome⟩

/-- The delay the timer of SocketWriter.recv is scheduled with: the call is
`setTimeout(() => reject(...))` with the delay argument omitted, so the
timer fires with delay 0 regardless of the `timeout` parameter's value. -/
def recvTimerDelay (timeout : Option Nat) : Option Nat :=
  if timeout.isSome then some 0 else none

/-- Effect of the timer firing in SocketWriter.recv: the promise is
rejected with "Communication timed out" and nothing is deregistered, so the
`data` listener stays attached. -/
def recvFireTimeout (s : SWRecvState) : SWRecvState :=
  ⟨s.dataRegistered, false⟩

end SocketWriter

/-- The UTF-8 bytes of the string "application/dns-tap" (19 bytes). -/
def appDnsTap : ContentType :=
  [97, 112, 112, 108, 105, 99, 97, 116, 105, 111, 110, 47,
   100, 110, 115, 45, 116, 97, 112]

/-! ## Support lemmas -/

/-- Reading back a written 32-bit big-endian value recovers it for values
below 2^32 (all lengths and types the codec writes). -/
theorem readUInt32BE_writeUInt32BE_append (n : Nat) (rest : List Nat)
    (h : n < 4294967296) : readUInt32BE (writeUInt32BE n ++ rest) = some n := by
  simp [writeUInt32BE, readUInt32BE]
  omega

/-- Dropping the four bytes of a written 32-bit value. -/
theorem drop_four_writeUInt32BE_append (n : Nat) (rest : List Nat) :
    (writeUInt32BE n ++ rest).drop 4 = rest := rfl

/-- The encoded field block is 8 bytes of header plus the value bytes per
content type. -/
theorem encodeFields_length (cts : List ContentType) :
    (Control.encodeFields cts).length = (cts.map (fun ct => 8 + ct.length)).sum := by
  induction cts with
  | nil => rfl
  | cons ct rest ih =>
      simp [Control.encodeFields, writeUInt32BE, ih]
      omega

/-- One iteration of the decode loop on a well-formed field whose declared
length matches its value consumes exactly that field. -/
theorem decodeFieldsAux_step (f len : Nat) (v rest2 : List Nat)
    (hv : v.length = len) (hlen : len ≤ 512) :
    Control.decodeFieldsAux (f + 1)
        (writeUInt32BE ControlFieldType.CONTENT_TYPE ++
          (writeUInt32BE len ++ (v ++ rest2))) =
      (Control.decodeFieldsAux f (rest2)).map (fun tail => v :: tail) := by
  show Control.decodeFieldsAux (f + 1)
      (0 :: 0 :: 0 :: 1 :: (writeUInt32BE len ++ (v ++ rest2))) = _
  rw [Control.decodeFieldsAux]
  case x_2 => intro h; cases h
  have h2 : readUInt32BE (0 :: 0 :: 0 :: 1 :: (writeUInt32BE len ++ (v ++ rest2))) =
      some 1 := by
    simp [readUInt32BE]
  rw [h2]
  have hd : List.drop 4 (0 :: 0 :: 0 :: 1 :: (writeUInt32BE len ++ (v ++ rest2))) =
      writeUInt32BE len ++ (v ++ rest2) := rfl
  rw [hd]
  rw [readUInt32BE_writeUInt32BE_append len (v ++ rest2) (by omega)]
  have hc : ((1 : Nat) = ControlFieldType.CONTENT_TYPE) = True := by
    simp [ControlFieldType.CONTENT_TYPE]
  have hg : (len > CONTROL_FIELD_CONTENT_TYPE_LENGTH_MAX) = False := by
    simp [CONTROL_FIELD_CONTENT_TYPE_LENGTH_MAX]; omega
  simp only [hc, hg, if_true, if_false, drop_four_writeUInt32BE_append]
  rw [← hv, List.take_left, List.drop_left]
  cases h : Control.decodeFieldsAux f rest2 <;> simp [h, Except.map]

/-- A list is no longer than the sum of its per-element encoded sizes. -/
theorem length_le_fields_sum (cts : List ContentType) :
    cts.length ≤ (cts.map (fun ct => 8 + ct.length)).sum := by
  induction cts with
  | nil => simp
  | cons ct rest ih => simp; omega

/-- Decoding the encoded field block recovers the content types, provided
each value fits the 512-byte field limit and the fuel covers the field
count (the decoder passes the byte count, which always does). -/
theorem decodeFieldsAux_encodeFields (cts : List ContentType) (fuel : Nat)
    (hlen : ∀ ct ∈ cts, ct.length ≤ 512) (hfuel : cts.length ≤ fuel) :
    Control.decodeFieldsAux fuel (Control.encodeFields cts) = .ok cts := by
  induction cts generalizing fuel with
  | nil => cases fuel <;> rfl
  | cons ct rest ih =>
      obtain ⟨f, rfl⟩ : ∃ f, fuel = f + 1 := by
        cases fuel with
        | zero => simp at hfuel
        | succ f => exact ⟨f, rfl⟩
      have hct : ct.length ≤ 512 := hlen ct (by simp)
      rw [Control.encodeFields, List.append_assoc, List.append_assoc]
      rw [decodeFieldsAux_step f ct.length ct (Control.encodeFields rest) rfl hct]
      rw [ih f (fun c hc => hlen c (by simp [hc])) (by simp at hfuel; omega)]
      rfl

/-! ## Claim theorems -/

set_option maxRecDepth 10000

/-- Claim C1, counterexample: for a content-type string whose UTF-8 encoding
is exactly 512 bytes, the claimed round-trip fails — `Control.encode`
produces a 524-byte buffer whose 520-byte payload exceeds
CONTROL_FRAME_LENGTH_MAX, so `Control.decode` throws the length error
instead of returning the type and content types. -/
theorem control_roundtrip_fails_at_512_byte_value :
    Control.roundtrip ControlFrameType.START [List.replicate 512 97] =
      .error (.lengthExceeded 524) ∧
    Control.roundtrip ControlFrameType.START [List.replicate 512 97] ≠
      .ok ⟨ControlFrameType.START, [List.replicate 512 97]⟩ :=
  have h1 : Control.roundtrip ControlFrameType.START [List.replicate 512 97] =
      .error (.lengthExceeded 524) := rfl
  ⟨h1, fun h => Except.noConfusion (h1.symm.trans h)⟩

/-- Claim C1 (amended): for every control-message type other than STOP and
FINISH and every content-type array whose encoded fields total at most 512
bytes (8 header bytes plus the UTF-8 byte length per entry — which covers
empty strings and non-ASCII text, but not 512-byte-exactly values),
decoding the encoding returns the same type and the same content-type array
in the same order. -/
theorem control_roundtrip_within_payload_limit (t : Nat) (cts : List ContentType)
    (ht : t = ControlFrameType.ACCEPT ∨ t = ControlFrameType.START ∨
      t = ControlFrameType.READY)
    (hsum : (cts.map (fun ct => 8 + ct.length)).sum ≤ 512) :
    Control.roundtrip t cts = .ok ⟨t, cts⟩ := by
  have hne : ¬((some cts).isSome ∧
      (t = ControlFrameType.STOP ∨ t = ControlFrameType.FINISH)) := by
    rcases ht with rfl | rfl | rfl <;> simp [ControlFrameType.STOP,
      ControlFrameType.FINISH, ControlFrameType.ACCEPT, ControlFrameType.START,
      ControlFrameType.READY]
  rw [Control.roundtrip, Control.encode, if_neg hne]
  show Control.decode (writeUInt32BE t ++ Control.encodeFields cts) = _
  have hlen4 : ¬((writeUInt32BE t ++ Control.encodeFields cts).length < 4) := by
    simp [writeUInt32BE]
  rw [Control.decode, if_neg hlen4, drop_four_writeUInt32BE_append]
  have hmax : ¬((Control.encodeFields cts).length > CONTROL_FRAME_LENGTH_MAX) := by
    rw [encodeFields_length]
    simp only [CONTROL_FRAME_LENGTH_MAX]
    omega
  rw [if_neg hmax]
  have ht32 : t < 4294967296 := by
    rcases ht with rfl | rfl | rfl <;> simp [ControlFrameType.ACCEPT,
      ControlFrameType.START, ControlFrameType.READY]
  rw [readUInt32BE_writeUInt32BE_append t _ ht32]
  have hmem : t = ControlFrameType.ACCEPT ∨ t = ControlFrameType.START ∨
      t = ControlFrameType.STOP ∨ t = ControlFrameType.READY ∨
      t = ControlFrameType.FINISH := by tauto
  have hbound : ∀ ct ∈ cts, ct.length ≤ 512 := by
    intro ct hct
    have : 8 + ct.length ≤ (cts.map (fun ct => 8 + ct.length)).sum :=
      List.single_le_sum (by simp) _ (List.mem_map_of_mem _ hct)
    omega
  have hfields := decodeFieldsAux_encodeFields cts
    (Control.encodeFields cts).length hbound
    (le_trans (length_le_fields_sum cts) (le_of_eq (encodeFields_length cts).symm))
  simp only [if_pos hmem, hfields]

/-- Claim C1, witness: the round-trip theorem applied at START with the
single content type "a". -/
theorem control_roundtrip_within_payload_limit_witness :
    ((2 : Nat) = ControlFrameType.ACCEPT ∨ (2 : Nat) = ControlFrameType.START ∨
      (2 : Nat) = ControlFrameType.READY) ∧
    (([[97]] : List ContentType).map (fun ct => 8 + ct.length)).sum ≤ 512 ∧
    Control.roundtrip 2 [[97]] = .ok ⟨2, [[97]]⟩ :=
  ⟨by decide, by decide,
    control_roundtrip_within_payload_limit 2 [[97]] (by decide) (by decide)⟩

/-- Claim C2: on a buffer whose field declares a 32-bit length (10) that
exceeds the bytes remaining after the field header (2), `Control.decode`
returns a successful result whose field value is the silently shortened
remainder — it does not fail with a Truncated framing error, contradicting
the claim and the spec. -/
theorem control_decode_truncated_field_silent_partial_read :
    Control.decode [0, 0, 0, 2, 0, 0, 0, 1, 0, 0, 0, 10, 97, 98] =
      .ok ⟨ControlFrameType.START, [[97, 98]]⟩ ∧
    ([97, 98] : List Nat).length < 10 :=
  ⟨rfl, by decide⟩

/-- Claim C3: a bidirectional handshake run in which the inbound frame
decodes as an ACCEPT carrying a matching content type ("a", also the
configured set) completes successfully having written only the single
READY frame — no START message is ever encoded or sent, contradicting the
claim, the spec's step 5 and the sequence documented in the source's own
comments. -/
theorem socketWriter_handshake_omits_start_frame :
    SocketWriter.handshake (some [[97]]) [0, 0, 0, 1, 0, 0, 0, 1, 0, 0, 0, 1, 97] =
      ⟨[[0, 0, 0, 13, 0, 0, 0, 4, 0, 0, 0, 1, 0, 0, 0, 1, 97]], .ok ()⟩ := by
  rfl

/-- Claim C4: completion callbacks are not all deregistered when an outcome
fires.  In Encoder.recv with the default 5000 ms timeout, after the data
event fires the timeout timer is still pending (there is no clearTimeout in
`cleanup`); and in SocketWriter.recv the timer is scheduled with delay 0
(the 5000 is never passed to setTimeout) and its firing leaves the data
listener registered. -/
theorem recv_completion_callbacks_left_dangling :
    Encoder.recvFireData (Encoder.recvRegister (some 5000)) =
      ⟨false, false, false, true⟩ ∧
    SocketWriter.recvTimerDelay (some 5000) = some 0 ∧
    SocketWriter.recvFireTimeout (SocketWriter.recvRegister (some 5000)) =
      ⟨true, false⟩ :=
  ⟨rfl, rfl, rfl⟩

/-- Claim C5, counterexample: encode(START, ["application/dns-tap"])
produces 31 bytes, not the claimed 32 — the string's UTF-8 encoding is 19
bytes (0x13), not 20 (0x14). -/
theorem encode_start_dnstap_is_31_bytes :
    Control.encode ControlFrameType.START (some [appDnsTap]) =
      .ok ([0, 0, 0, 2] ++ [0, 0, 0, 1] ++ [0, 0, 0, 19] ++ appDnsTap) ∧
    ([0, 0, 0, 2] ++ [0, 0, 0, 1] ++ [0, 0, 0, 19] ++ appDnsTap).length = 31 ∧
    (31 : Nat) ≠ 32 :=
  ⟨rfl, rfl, by decide⟩

/-- Claim C5 (amended): encode(START, ["application/dns-tap"]) produces
exactly 00 00 00 02, then 00 00 00 01, then 00 00 00 13, then the 19 ASCII
bytes of the string, 31 bytes in total, and decoding that buffer returns
type START with the single content type "application/dns-tap". -/
theorem encode_start_dnstap_exact_bytes :
    Control.encode ControlFrameType.START (some [appDnsTap]) =
      .ok ([0, 0, 0, 2] ++ [0, 0, 0, 1] ++ [0, 0, 0, 19] ++ appDnsTap) ∧
    ([0, 0, 0, 2] ++ [0, 0, 0, 1] ++ [0, 0, 0, 19] ++ appDnsTap).length = 31 ∧
    Control.decode ([0, 0, 0, 2] ++ [0, 0, 0, 1] ++ [0, 0, 0, 19] ++ appDnsTap) =
      .ok ⟨ControlFrameType.START, [appDnsTap]⟩ :=
  ⟨rfl, rfl, rfl⟩

/-- Claim C6: checkContentTypes (the negotiate operation) returns true iff
the configured set is present and non-empty and shares at least one
byte-exact string with the candidate list; in particular it is false
whenever the configured set is unset (`none`) or empty, regardless of the
candidate. -/
theorem checkContentTypes_true_iff_intersects (cfg : Option (List ContentType))
    (cand : List ContentType) :
    (Control.checkContentTypes cfg cand = true ↔
      ∃ l, cfg = some l ∧ l ≠ [] ∧ ∃ s ∈ l, s ∈ cand) ∧
    Control.checkContentTypes none cand = false ∧
    Control.checkContentTypes (some []) cand = false := by
  refine ⟨?_, rfl, rfl⟩
  cases cfg with
  | none => simp [Control.checkContentTypes]
  | some l =>
      simp only [Control.checkContentTypes, List.any_eq_true, List.elem_iff,
        Option.some.injEq]
      constructor
      · rintro ⟨s, hs, hmem⟩
        refine ⟨l, rfl, ?_, s, hs, hmem⟩
        rintro rfl
        cases hs
      · rintro ⟨l2, rfl, hne, s, hs, hmem⟩
        exact ⟨s, hs, hmem⟩

/-- Claim C7: for every non-empty content-type array, encode rejects STOP
and FINISH with the FieldNotAllowed error, producing no output bytes (the
exception is thrown before any buffer is built). -/
theorem encode_stop_finish_nonempty_rejected (cts : List ContentType)
    (h : cts ≠ []) :
    Control.encode ControlFrameType.STOP (some cts) = .error .fieldNotAllowed ∧
    Control.encode ControlFrameType.FINISH (some cts) = .error .fieldNotAllowed := by
  constructor <;> rfl

/-- Claim C7, witness: the STOP/FINISH rejection applied to the non-empty
array containing "a". -/
theorem encode_stop_finish_nonempty_rejected_witness :
    ([[97]] : List ContentType) ≠ [] ∧
    Control.encode ControlFrameType.STOP (some [[97]]) = .error .fieldNotAllowed ∧
    Control.encode ControlFrameType.FINISH (some [[97]]) = .error .fieldNotAllowed :=
  ⟨by decide, (encode_stop_finish_nonempty_rejected [[97]] (by decide)).1,
    (encode_stop_finish_nonempty_rejected [[97]] (by decide)).2⟩

/-- Claim C8: for every complete wire-format control frame (4-zero-byte
escape marker, 4-byte big-endian length, payload of that length),
Writer.init's ACCEPT check reads the first four raw bytes — the escape
marker — as the control-frame type, obtaining 0, which is never ACCEPT, so
init rejects even a correctly framed ACCEPT response. -/
theorem init_accept_check_rejects_framed_accept (len : Nat) (payload : List Nat)
    (h : payload.length = len) :
    Encoder.bufferToControlFrameType
        (ESCAPE_SEQUENCE ++ writeUInt32BE len ++ payload) = some 0 ∧
    (0 : Nat) ≠ ControlFrameType.ACCEPT ∧
    Writer.initAcceptCheck (ESCAPE_SEQUENCE ++ writeUInt32BE len ++ payload) =
      .error (.unexpectedType 0) :=
  ⟨rfl, by simp [ControlFrameType.ACCEPT], rfl⟩

/-- Claim C8, witness: the rejection applied to the framed encoding of a
bare ACCEPT control message (payload 00 00 00 01, length 4). -/
theorem init_accept_check_rejects_framed_accept_witness :
    ([0, 0, 0, 1] : List Nat).length = 4 ∧
    Writer.initAcceptCheck (ESCAPE_SEQUENCE ++ writeUInt32BE 4 ++ [0, 0, 0, 1]) =
      .error (.unexpectedType 0) :=
  ⟨rfl, (init_accept_check_rejects_framed_accept 4 [0, 0, 0, 1] rfl).2.2⟩

/-- Claim C9: Control.decode always returns a content-type array (the
model's DecodedControlFrame field is not optional because the source always
assigns it), so the negotiation guard runs on every decoded ACCEPT; the
handshake fails with the "Content types not supported" error whenever the
configured set has empty intersection with the decoded content types —
including when the ACCEPT carries zero fields, and always when the
configured set is unset. -/
theorem handshake_fails_unsupported_content_type (cfg : Option (List ContentType))
    (frame : List Nat) (cts : List ContentType)
    (hdec : Control.decode frame = .ok ⟨ControlFrameType.ACCEPT, cts⟩)
    (hdisj : ∀ l, cfg = some l → ∀ s ∈ l, s ∉ cts) :
    (SocketWriter.handshake cfg frame).outcome = .error .unsupportedContentType := by
  have hready : Control.encode ControlFrameType.READY cfg =
      .ok (writeUInt32BE ControlFrameType.READY ++
        Control.encodeFields (cfg.getD [])) := by
    rw [Control.encode, if_neg]
    rintro ⟨-, h | h⟩ <;> simp [ControlFrameType.READY, ControlFrameType.STOP,
      ControlFrameType.FINISH] at h
  have hchk : Control.checkContentTypes cfg cts = false := by
    cases cfg with
    | none => rfl
    | some l =>
        simp only [Control.checkContentTypes, List.any_eq_false, List.elem_iff]
        intro s hs
        exact fun hmem => hdisj l rfl s hs hmem
  rw [SocketWriter.handshake, hready, hdec]
  simp [hchk]

/-- Claim C9, witness: an ACCEPT with zero content-type fields and an unset
configured set fails the handshake with the unsupported-content-type
error. -/
theorem handshake_fails_unsupported_content_type_witness :
    Control.decode [0, 0, 0, 1] = .ok ⟨ControlFrameType.ACCEPT, []⟩ ∧
    (SocketWriter.handshake none [0, 0, 0, 1]).outcome =
      .error .unsupportedContentType :=
  ⟨rfl, handshake_fails_unsupported_content_type none [0, 0, 0, 1] [] rfl
    (fun l h => nomatch h)⟩

/-- Claim C10: encode(STOP, []) and encode(FINISH, []) with a present but
empty content-type array also fail with the FieldNotAllowed error, because
an empty array is truthy in JavaScript, so any provided array is rejected
for STOP and FINISH. -/
theorem encode_stop_finish_empty_array_rejected :
    Control.encode ControlFrameType.STOP (some []) = .error .fieldNotAllowed ∧
    Control.encode ControlFrameType.FINISH (some []) = .error .fieldNotAllowed :=
  ⟨rfl, rfl⟩
